import Mathlib

/-!
Verification of the media-processing core of the StreamSparkAI repository.

The Python sources are shallowly embedded as Lean definitions:

* `src/core/utils/transcribe_audio.py` — the diarized-transcript formatter
  (`format_transcription_result`) and the polling loop (`wait_for_completion`);
* `src/core/utils/llm_client.py` — the model allow-lists (`SUPPORTED_MODELS`,
  `is_valid_model`) and the two provider clients (`OpenAIClient.summarize`,
  `AlibabaClient.summarize`);
* `src/core/models.py` — the `AudioMedia` pipeline methods (`convert_to_aac`,
  `transcribe_audio`, `generate_summary`, `generate_subtitle`) together with
  the `SummarySnapshot` store and Django's `save`/`update_fields` semantics;
* `src/core/utils/audio_processor.py` — `convert_to_mono_aac`.

Remote services (HTTP requests, the ffmpeg process, the database clock) are
modelled as explicit environment parameters; every distinct exit path of a
Python function becomes a distinct constructor of an outcome type, so that the
theorems can speak about which failure occurred.  Dict-shaped JSON payloads are
modelled structurally, with `Option` for keys that may be absent.
-/

namespace StreamSpark

/-! ## Transcription payloads (src/core/utils/transcribe_audio.py) -/

/-- Embedding of Python's `str.strip()`: drop whitespace from both ends.
Defined by structural recursion on the character list so that the kernel can
evaluate it (Lean's `String.trim` is not kernel-reducible). -/
def pyStrip (s : String) : String :=
  ((s.data.dropWhile Char.isWhitespace).reverse.dropWhile Char.isWhitespace).reverse.asString

/-- A sentence event of the ASR payload: `speaker_id` holds the value of the
optional `speaker_id` key (`none` models a missing key, Python `None`), and
`text` the value of the `text` key (`sentence.get('text', '')`, so a missing
key is the empty string). -/
structure RawSentence where
  speaker_id : Option Nat
  text : String
deriving DecidableEq, Repr

/-- One element of the `transcripts` array of the payload; `sentences = none`
models a transcript object without a `"sentences"` key. -/
structure Transcript where
  sentences : Option (List RawSentence)
deriving DecidableEq, Repr

/-- The transcription payload fetched from the ASR service. -/
structure TranscribeResult where
  transcripts : List Transcript
deriving DecidableEq, Repr

/-- State of the sentence loop in `format_transcription_result`: the Python
locals `speaker_map` (an insertion-ordered dict, modelled as an association
list whose entries are appended in insertion order), `current_speaker`,
`current_text` and `formatted_lines`.  Python initialises `current_speaker`
to `None`, which is the same value as a missing `speaker_id`, hence the plain
`Option Nat` type. -/
structure FmtState where
  speaker_map : List (Option Nat × String)
  current_speaker : Option Nat
  current_text : String
  formatted_lines : List String
deriving DecidableEq, Repr

/-- One iteration of the sentence loop of `format_transcription_result`
(transcribe_audio.py, lines 228-251): strip the text, skip it when empty,
register the speaker in `speaker_map` with label `speaker (len+1)` on first
appearance, then either extend `current_text` (same speaker) or flush the
accumulated line and start a new one. -/
def fmtStep (st : FmtState) (sentence : RawSentence) : FmtState :=
  let text := pyStrip sentence.text
  if text = "" then st
  else
    let sm :=
      if (st.speaker_map.lookup sentence.speaker_id).isSome then st.speaker_map
      else st.speaker_map ++
        [(sentence.speaker_id, "speaker " ++ toString (st.speaker_map.length + 1))]
    if sentence.speaker_id == st.current_speaker then
      { st with speaker_map := sm, current_text := st.current_text ++ " " ++ text }
    else
      let lines :=
        if st.current_text ≠ "" then
          st.formatted_lines ++
            [((sm.lookup st.current_speaker).getD "") ++ ": " ++ st.current_text]
        else st.formatted_lines
      { speaker_map := sm, current_speaker := sentence.speaker_id,
        current_text := text, formatted_lines := lines }

/-- The flush after the loop (transcribe_audio.py, lines 253-255): append the
last accumulated line when non-empty. -/
def fmtFinish (st : FmtState) : List String :=
  if st.current_text ≠ "" then
    st.formatted_lines ++
      [((st.speaker_map.lookup st.current_speaker).getD "") ++ ": " ++ st.current_text]
  else st.formatted_lines

/-- Embedding of `format_transcription_result` (transcribe_audio.py,
lines 190-258).  A `none` payload models a falsy `result` (Python `None`
or an empty dict); the placeholder strings are exactly those of the source. -/
def format_transcription_result : Option TranscribeResult → String
  | none => "No transcription result available"
  | some r =>
    match r.transcripts with
    | [] => "No transcripts available"
    | t :: _ =>
      match t.sentences with
      | none => "No sentences available"
      | some sentences =>
        if sentences.length = 0 then "No sentences available"
        else
          String.intercalate "\n"
            (fmtFinish (sentences.foldl fmtStep ⟨[], none, "", []⟩))

/-- Convenience constructor for a well-formed payload holding the
given sentence list in its first transcript. -/
def sentencesPayload (ss : List RawSentence) : Option TranscribeResult :=
  some ⟨[⟨some ss⟩]⟩

/-! ### Specification-side formatter (from the words of the spec)

The spec of the formatter: empty-text sentences are skipped; consecutive
sentences sharing a speaker identifier are space-joined into one line;
speaker labels "speaker 1", "speaker 2", … are assigned in order of first
appearance in the sentence sequence. -/

/-- Spec side: skip empty-text sentences; the surviving sentences carry their
stripped text. -/
def cleanSentences (ss : List RawSentence) : List (Option Nat × String) :=
  ss.filterMap fun s =>
    if pyStrip s.text = "" then none else some (s.speaker_id, pyStrip s.text)

/-- Spec side: group maximal runs of consecutive sentences sharing a speaker
identifier. -/
def specChunks : List (Option Nat × String) → List (Option Nat × List String)
  | [] => []
  | (sp, t) :: rest =>
    match specChunks rest with
    | [] => [(sp, [t])]
    | (sp2, ts) :: more =>
      if sp = sp2 then (sp, t :: ts) :: more else (sp, [t]) :: (sp2, ts) :: more

/-- Spec side: the speaker identifiers in order of first appearance. -/
def firstOcc : List (Option Nat × String) → List (Option Nat)
  | [] => []
  | (sp, _) :: rest => sp :: (firstOcc rest).filter (fun x => x ≠ sp)

/-- Spec side: the label of a speaker is its 1-based position in the
first-appearance order. -/
def specLabel (firsts : List (Option Nat)) (sp : Option Nat) : String :=
  "speaker " ++ toString (firsts.indexOf sp + 1)

/-- Spec side: one output line — label, colon, space-joined texts of the run. -/
def specLine (firsts : List (Option Nat)) (c : Option Nat × List String) : String :=
  specLabel firsts c.1 ++ ": " ++ String.intercalate " " c.2

/-- Spec side: the whole formatted transcript described by the spec's words. -/
def specFormat (ss : List RawSentence) : String :=
  String.intercalate "\n"
    ((specChunks (cleanSentences ss)).map (specLine (firstOcc (cleanSentences ss))))

/-! ### Equivalence of the formatter with its specification -/

/-- The speaker-registration step of the loop, factored out of `fmtStep`. -/
def insertSpeaker (m : List (Option Nat × String)) (sp : Option Nat) :
    List (Option Nat × String) :=
  if (m.lookup sp).isSome then m
  else m ++ [(sp, "speaker " ++ toString (m.length + 1))]

/-- The loop body specialised to an already cleaned sentence (the stripped
text is non-empty, so the skip branch of `fmtStep` is gone). -/
def fmtStep' (st : FmtState) (p : Option Nat × String) : FmtState :=
  let sm := insertSpeaker st.speaker_map p.1
  if p.1 == st.current_speaker then
    { st with speaker_map := sm, current_text := st.current_text ++ " " ++ p.2 }
  else
    let lines :=
      if st.current_text ≠ "" then
        st.formatted_lines ++
          [((sm.lookup st.current_speaker).getD "") ++ ": " ++ st.current_text]
      else st.formatted_lines
    { speaker_map := sm, current_speaker := p.1,
      current_text := p.2, formatted_lines := lines }

theorem fmtStep_eq (st : FmtState) (s : RawSentence) :
    fmtStep st s =
      if pyStrip s.text = "" then st
      else fmtStep' st (s.speaker_id, pyStrip s.text) := by
  by_cases h : pyStrip s.text = "" <;>
    simp [fmtStep, fmtStep', insertSpeaker, h]

theorem foldl_fmtStep (ss : List RawSentence) (st : FmtState) :
    ss.foldl fmtStep st = (cleanSentences ss).foldl fmtStep' st := by
  induction ss generalizing st with
  | nil => rfl
  | cons s rest ih =>
    by_cases h : pyStrip s.text = "" <;>
      simp [cleanSentences, List.filterMap_cons, h, fmtStep_eq, ih, List.foldl_cons]

/-- Accumulated speaker registration over a cleaned sentence list. -/
def insertAll (m : List (Option Nat × String)) (l : List (Option Nat × String)) :
    List (Option Nat × String) :=
  l.foldl (fun m p => insertSpeaker m p.1) m

/-- Rendering of one merged line from the final speaker map. -/
def renderLine (m : List (Option Nat × String)) (c : Option Nat × String) : String :=
  ((m.lookup c.1).getD "") ++ ": " ++ c.2

/-- Consecutive-run grouping as computed left to right from a current run. -/
def chunksFrom (sp : Option Nat) (acc : String) :
    List (Option Nat × String) → List (Option Nat × String)
  | [] => [(sp, acc)]
  | (sp2, t) :: r =>
    if sp2 = sp then chunksFrom sp (acc ++ " " ++ t) r
    else (sp, acc) :: chunksFrom sp2 t r

theorem lookup_insertSpeaker_of_isSome {m : List (Option Nat × String)}
    {k : Option Nat} (sp : Option Nat) (h : (m.lookup k).isSome) :
    (insertSpeaker m sp).lookup k = m.lookup k := by
  unfold insertSpeaker
  split
  · rfl
  · rw [List.lookup_append]
    cases hm : m.lookup k with
    | none => rw [hm] at h; simp at h
    | some v => simp [Option.or]

theorem lookup_insertSpeaker_self (m : List (Option Nat × String)) (sp : Option Nat) :
    ((insertSpeaker m sp).lookup sp).isSome := by
  unfold insertSpeaker
  split
  · assumption
  · rename_i hnot
    rw [List.lookup_append]
    cases hm : m.lookup sp with
    | none => simp
    | some v => exact absurd (by rw [hm]; rfl) hnot

theorem lookup_insertAll_of_isSome {k : Option Nat}
    (l : List (Option Nat × String)) (m : List (Option Nat × String))
    (h : (m.lookup k).isSome) :
    (insertAll m l).lookup k = m.lookup k := by
  induction l generalizing m with
  | nil => rfl
  | cons p r ih =>
    show (insertAll (insertSpeaker m p.1) r).lookup k = m.lookup k
    rw [ih (insertSpeaker m p.1) (by rw [lookup_insertSpeaker_of_isSome p.1 h]; exact h),
      lookup_insertSpeaker_of_isSome p.1 h]

theorem str_append_assoc (a b c : String) : a ++ b ++ c = a ++ (b ++ c) :=
  String.ext (by simp)

theorem append_space_ne_empty (a b : String) : a ++ " " ++ b ≠ "" := by
  intro h
  have h2 := congrArg String.length h
  rw [String.length_append, String.length_append] at h2
  have h3 : (" " : String).length = 1 := rfl
  have h4 : ("" : String).length = 0 := rfl
  rw [h3, h4] at h2
  omega

theorem intercalate_go_append (pre : String) (s : String) (l : List String) :
    ∀ acc, String.intercalate.go (pre ++ acc) s l = pre ++ String.intercalate.go acc s l := by
  induction l with
  | nil => intro acc; rfl
  | cons b bs ih =>
    intro acc
    show String.intercalate.go (pre ++ acc ++ s ++ b) s bs =
      pre ++ String.intercalate.go (acc ++ s ++ b) s bs
    rw [str_append_assoc (pre ++ acc) s b, str_append_assoc pre acc (s ++ b),
      ← str_append_assoc acc s b, ih]

theorem intercalate_cons2 (s a b : String) (l : List String) :
    String.intercalate s (a :: b :: l) = a ++ s ++ String.intercalate s (b :: l) := by
  show String.intercalate.go ((a ++ s) ++ b) s l = _
  rw [intercalate_go_append]
  rfl

theorem intercalate_merge (t t2 : String) (A : List String) :
    String.intercalate " " ((t ++ " " ++ t2) :: A) =
      t ++ " " ++ String.intercalate " " (t2 :: A) := by
  cases A with
  | nil => rfl
  | cons a A' =>
    rw [intercalate_cons2, intercalate_cons2, str_append_assoc (t ++ " ") t2,
      str_append_assoc (t ++ " ")]

theorem fmtLoop_chunks :
    ∀ (l : List (Option Nat × String)) (m : List (Option Nat × String))
      (sp : Option Nat) (acc : String) (lines : List String),
      (m.lookup sp).isSome → acc ≠ "" → (∀ p ∈ l, p.2 ≠ "") →
      fmtFinish (l.foldl fmtStep' ⟨m, sp, acc, lines⟩) =
        lines ++ (chunksFrom sp acc l).map (renderLine (insertAll m l)) := by
  intro l
  induction l with
  | nil =>
    intro m sp acc lines hm hacc _
    simp [fmtFinish, chunksFrom, insertAll, renderLine, hacc]
  | cons p r ih =>
    obtain ⟨sp2, t⟩ := p
    intro m sp acc lines hm hacc htexts
    by_cases hsp : sp2 = sp
    · subst hsp
      have hmm : insertSpeaker m sp2 = m := by unfold insertSpeaker; rw [if_pos hm]
      have hstep : fmtStep' ⟨m, sp2, acc, lines⟩ (sp2, t) =
          ⟨m, sp2, acc ++ " " ++ t, lines⟩ := by
        simp [fmtStep', hmm]
      rw [List.foldl_cons, hstep,
        ih m sp2 (acc ++ " " ++ t) lines hm (append_space_ne_empty acc t)
          (fun q hq => htexts q (List.mem_cons_of_mem _ hq))]
      simp [chunksFrom, insertAll, List.foldl_cons, hmm]
    · have hbeq : (sp2 == sp) = false := by simp [hsp]
      have hstep : fmtStep' ⟨m, sp, acc, lines⟩ (sp2, t) =
          ⟨insertSpeaker m sp2, sp2, t,
            lines ++ [((insertSpeaker m sp2).lookup sp).getD "" ++ ": " ++ acc]⟩ := by
        simp [fmtStep', hbeq, hacc]
      have hsome : ((insertSpeaker m sp2).lookup sp).isSome := by
        rw [lookup_insertSpeaker_of_isSome sp2 hm]; exact hm
      rw [List.foldl_cons, hstep,
        ih (insertSpeaker m sp2) sp2 t _ (lookup_insertSpeaker_self m sp2)
          (htexts (sp2, t) (List.mem_cons_self _ _))
          (fun q hq => htexts q (List.mem_cons_of_mem _ hq))]
      have hM : (insertAll (insertSpeaker m sp2) r).lookup sp =
          (insertSpeaker m sp2).lookup sp :=
        lookup_insertAll_of_isSome r (insertSpeaker m sp2) hsome
      have hIA : insertAll m ((sp2, t) :: r) = insertAll (insertSpeaker m sp2) r := rfl
      simp [chunksFrom, hsp, hIA, renderLine, hM]

/-- Decomposition of `specChunks` at a cons cell: the texts merged into the
head run and the remaining runs. -/
def chunkSplit (sp : Option Nat) (l : List (Option Nat × String)) :
    List String × List (Option Nat × List String) :=
  match specChunks l with
  | [] => ([], [])
  | (sp2, ts) :: more => if sp = sp2 then (ts, more) else ([], (sp2, ts) :: more)

theorem specChunks_cons (sp : Option Nat) (t : String) (l : List (Option Nat × String)) :
    specChunks ((sp, t) :: l) = (sp, t :: (chunkSplit sp l).1) :: (chunkSplit sp l).2 := by
  cases h : specChunks l with
  | nil => simp [specChunks, chunkSplit, h]
  | cons c more =>
    obtain ⟨sp2, ts⟩ := c
    by_cases hsp : sp = sp2 <;> simp [specChunks, chunkSplit, h, hsp]

theorem chunkSplit_cons (sp sp2 : Option Nat) (t2 : String)
    (r' : List (Option Nat × String)) :
    chunkSplit sp ((sp2, t2) :: r') =
      if sp = sp2 then (t2 :: (chunkSplit sp2 r').1, (chunkSplit sp2 r').2)
      else ([], specChunks ((sp2, t2) :: r')) := by
  by_cases hsp : sp = sp2 <;>
    simp [chunkSplit, specChunks_cons sp2 t2 r', hsp]

theorem map_specChunks_eq_chunksFrom :
    ∀ (r : List (Option Nat × String)) (sp : Option Nat) (t : String),
      (specChunks ((sp, t) :: r)).map (fun c => (c.1, String.intercalate " " c.2)) =
        chunksFrom sp t r := by
  intro r
  induction r with
  | nil =>
    intro sp t
    have h1 : String.intercalate " " [t] = t := rfl
    simp [specChunks, chunksFrom, h1]
  | cons q r' ih =>
    obtain ⟨sp2, t2⟩ := q
    intro sp t
    by_cases hsp : sp = sp2
    · subst hsp
      rw [specChunks_cons sp t ((sp, t2) :: r'), chunkSplit_cons, if_pos rfl]
      have hR : chunksFrom sp t ((sp, t2) :: r') = chunksFrom sp (t ++ " " ++ t2) r' := by
        simp [chunksFrom]
      rw [hR, ← ih sp (t ++ " " ++ t2), specChunks_cons sp (t ++ " " ++ t2) r']
      simp [intercalate_merge, intercalate_cons2]
    · rw [specChunks_cons sp t ((sp2, t2) :: r'), chunkSplit_cons, if_neg hsp]
      have hsp' : ¬sp2 = sp := fun h => hsp h.symm
      have hR : chunksFrom sp t ((sp2, t2) :: r') =
          (sp, t) :: chunksFrom sp2 t2 r' := by
        simp [chunksFrom, hsp']
      have h1 : String.intercalate " " [t] = t := rfl
      rw [hR, ← ih sp2 t2]
      simp [h1]

/-- The speaker map that first-appearance insertion builds: the k-th speaker
of the list receives the label `speaker (off + k)`. -/
def buildMap (off : Nat) : List (Option Nat) → List (Option Nat × String)
  | [] => []
  | k :: ks => (k, "speaker " ++ toString (off + 1)) :: buildMap (off + 1) ks

theorem buildMap_length (ks : List (Option Nat)) :
    ∀ off, (buildMap off ks).length = ks.length := by
  induction ks with
  | nil => intro off; rfl
  | cons k ks ih => intro off; simp [buildMap, ih]

theorem buildMap_snoc (ks : List (Option Nat)) :
    ∀ off k, buildMap off (ks ++ [k]) =
      buildMap off ks ++ [(k, "speaker " ++ toString (off + ks.length + 1))] := by
  induction ks with
  | nil => intro off k; simp [buildMap]
  | cons k0 ks ih =>
    intro off k
    have harg : off + 1 + ks.length + 1 = off + (ks.length + 1) + 1 := by omega
    simp [buildMap, ih (off + 1) k, harg]

theorem lookup_buildMap_of_mem (ks : List (Option Nat)) :
    ∀ off sp, sp ∈ ks →
      (buildMap off ks).lookup sp =
        some ("speaker " ++ toString (off + ks.indexOf sp + 1)) := by
  induction ks with
  | nil => intro off sp h; simp at h
  | cons k ks ih =>
    intro off sp h
    by_cases hk : sp = k
    · subst hk
      simp [buildMap, List.lookup_cons, List.indexOf_cons]
    · have hmem : sp ∈ ks := by
        rcases List.mem_cons.mp h with h1 | h1
        · exact absurd h1 hk
        · exact h1
      have hbeq : (sp == k) = false := by simp [hk]
      have hidx : (k :: ks).indexOf sp = ks.indexOf sp + 1 := by
        rw [List.indexOf_cons]
        have hks : ¬k = sp := fun h2 => hk h2.symm
        have : (k == sp) = false := by simp [hks]
        simp [this]
      have harg : off + 1 + ks.indexOf sp + 1 = off + (ks.indexOf sp + 1) + 1 := by omega
      simp [buildMap, List.lookup_cons, hbeq, ih (off + 1) sp hmem, hidx, harg]

theorem lookup_buildMap_of_not_mem (ks : List (Option Nat)) :
    ∀ off sp, sp ∉ ks → (buildMap off ks).lookup sp = none := by
  induction ks with
  | nil => intro off sp _; rfl
  | cons k ks ih =>
    intro off sp h
    have hk : ¬sp = k := fun h2 => h (h2 ▸ List.mem_cons_self _ _)
    have hbeq : (sp == k) = false := by simp [hk]
    have hmem : sp ∉ ks := fun h2 => h (List.mem_cons_of_mem _ h2)
    simp [buildMap, List.lookup_cons, hbeq, ih (off + 1) sp hmem]

theorem lookup_insertAll_buildMap :
    ∀ (l : List (Option Nat × String)) (ks : List (Option Nat)) (sp : Option Nat),
      (sp ∈ ks ∨ sp ∈ l.map Prod.fst) →
      (insertAll (buildMap 0 ks) l).lookup sp =
        some ("speaker " ++
          toString ((ks ++ (firstOcc l).filter (fun x => x ∉ ks)).indexOf sp + 1)) := by
  intro l
  induction l with
  | nil =>
    intro ks sp h
    have hm : sp ∈ ks := by simpa using h
    show (buildMap 0 ks).lookup sp = _
    rw [lookup_buildMap_of_mem ks 0 sp hm]
    simp [firstOcc]
  | cons p r ih =>
    obtain ⟨sp2, t⟩ := p
    intro ks sp h
    by_cases hmem : sp2 ∈ ks
    · have hsome : ((buildMap 0 ks).lookup sp2).isSome := by
        rw [lookup_buildMap_of_mem ks 0 sp2 hmem]; rfl
      have hid : insertSpeaker (buildMap 0 ks) sp2 = buildMap 0 ks := by
        unfold insertSpeaker; rw [if_pos hsome]
      have hIA : insertAll (buildMap 0 ks) ((sp2, t) :: r) =
          insertAll (buildMap 0 ks) r := by
        show insertAll (insertSpeaker (buildMap 0 ks) sp2) r = _
        rw [hid]
      have hmem2 : sp ∈ ks ∨ sp ∈ r.map Prod.fst := by
        rcases h with h | h
        · exact Or.inl h
        · simp only [List.map_cons, List.mem_cons] at h
          rcases h with rfl | h
          · exact Or.inl hmem
          · exact Or.inr h
      rw [hIA, ih ks sp hmem2]
      have hfun : (fun a : Option Nat => !decide (a ∈ ks) && !decide (a = sp2)) =
          (fun a : Option Nat => !decide (a ∈ ks)) := by
        funext a
        by_cases ha : a = sp2
        · subst ha; simp [hmem]
        · simp [ha]
      have hfil : (firstOcc ((sp2, t) :: r)).filter (fun x => x ∉ ks) =
          (firstOcc r).filter (fun x => x ∉ ks) := by
        show ((sp2 :: (firstOcc r).filter (fun x => x ≠ sp2)).filter (fun x => x ∉ ks)) = _
        rw [List.filter_cons]
        simp [hmem, List.filter_filter]
        rw [hfun]
      rw [hfil]
    · have hnone : (buildMap 0 ks).lookup sp2 = none :=
        lookup_buildMap_of_not_mem ks 0 sp2 hmem
      have hext : insertSpeaker (buildMap 0 ks) sp2 = buildMap 0 (ks ++ [sp2]) := by
        unfold insertSpeaker
        rw [hnone]
        have hlen : (buildMap 0 ks).length + 1 = 0 + ks.length + 1 := by
          rw [buildMap_length]; omega
        simp [buildMap_snoc, hlen]
      have hIA : insertAll (buildMap 0 ks) ((sp2, t) :: r) =
          insertAll (buildMap 0 (ks ++ [sp2])) r := by
        show insertAll (insertSpeaker (buildMap 0 ks) sp2) r = _
        rw [hext]
      have hmem2 : sp ∈ ks ++ [sp2] ∨ sp ∈ r.map Prod.fst := by
        rcases h with h | h
        · exact Or.inl (List.mem_append_left _ h)
        · simp only [List.map_cons, List.mem_cons] at h
          rcases h with rfl | h
          · exact Or.inl (List.mem_append_right _ (List.mem_singleton_self _))
          · exact Or.inr h
      rw [hIA, ih (ks ++ [sp2]) sp hmem2]
      have hfun : (fun a : Option Nat => decide (a ∉ ks ++ [sp2])) =
          (fun a : Option Nat => decide (a ∉ ks) && decide (a ≠ sp2)) := by
        funext a
        by_cases h1 : a = sp2 <;> by_cases h2 : a ∈ ks <;> simp [h1, h2]
      have hlist : (ks ++ [sp2]) ++ (firstOcc r).filter (fun x => x ∉ ks ++ [sp2]) =
          ks ++ (firstOcc ((sp2, t) :: r)).filter (fun x => x ∉ ks) := by
        have hstep : (firstOcc ((sp2, t) :: r)).filter (fun x => x ∉ ks) =
            sp2 :: ((firstOcc r).filter (fun x => x ≠ sp2)).filter (fun x => x ∉ ks) := by
          show ((sp2 :: (firstOcc r).filter (fun x => x ≠ sp2)).filter (fun x => x ∉ ks)) = _
          rw [List.filter_cons]
          simp [hmem]
        rw [hstep, List.filter_filter, hfun, List.append_assoc]
        rfl
      rw [hlist]

theorem chunksFrom_fst_mem :
    ∀ (l : List (Option Nat × String)) (sp : Option Nat) (acc : String)
      (c : Option Nat × String), c ∈ chunksFrom sp acc l →
      c.1 = sp ∨ c.1 ∈ l.map Prod.fst := by
  intro l
  induction l with
  | nil =>
    intro sp acc c hc
    simp [chunksFrom] at hc
    simp [hc]
  | cons p r ih =>
    obtain ⟨sp2, t⟩ := p
    intro sp acc c hc
    by_cases hsp : sp2 = sp
    · subst hsp
      rw [show chunksFrom sp2 acc ((sp2, t) :: r) = chunksFrom sp2 (acc ++ " " ++ t) r by
        simp [chunksFrom]] at hc
      rcases ih sp2 (acc ++ " " ++ t) c hc with h | h
      · exact Or.inl h
      · exact Or.inr (by simp [h])
    · rw [show chunksFrom sp acc ((sp2, t) :: r) = (sp, acc) :: chunksFrom sp2 t r by
        simp [chunksFrom, hsp]] at hc
      rcases List.mem_cons.mp hc with rfl | hc2
      · exact Or.inl rfl
      · rcases ih sp2 t c hc2 with h | h
        · exact Or.inr (by simp [h])
        · exact Or.inr (by simp [h])

theorem cleanSentences_text_ne (ss : List RawSentence) :
    ∀ p ∈ cleanSentences ss, p.2 ≠ "" := by
  intro p hp
  rw [cleanSentences, List.mem_filterMap] at hp
  obtain ⟨s, _, heq⟩ := hp
  by_cases h : pyStrip s.text = ""
  · rw [if_pos h] at heq; exact absurd heq (by simp)
  · rw [if_neg h] at heq
    have hp2 : p = (s.speaker_id, pyStrip s.text) := (Option.some.inj heq).symm
    rw [hp2]; exact h

theorem cleanSentences_speaker_isSome (ss : List RawSentence)
    (hs : ∀ s ∈ ss, s.speaker_id.isSome) :
    ∀ p ∈ cleanSentences ss, p.1.isSome := by
  intro p hp
  rw [cleanSentences, List.mem_filterMap] at hp
  obtain ⟨s, hsm, heq⟩ := hp
  by_cases h : pyStrip s.text = ""
  · rw [if_pos h] at heq; exact absurd heq (by simp)
  · rw [if_neg h] at heq
    have hp1 : p = (s.speaker_id, pyStrip s.text) := (Option.some.inj heq).symm
    rw [hp1]; exact hs s hsm

theorem format_eq_spec (ss : List RawSentence)
    (hsp : ∀ s ∈ ss, s.speaker_id.isSome) (hne : ss ≠ []) :
    format_transcription_result (sentencesPayload ss) = specFormat ss := by
  have hlen : ¬ss.length = 0 := by simpa [List.length_eq_zero] using hne
  show (if ss.length = 0 then "No sentences available"
    else String.intercalate "\n" (fmtFinish (ss.foldl fmtStep ⟨[], none, "", []⟩))) = _
  rw [if_neg hlen, foldl_fmtStep]
  rcases hcl : cleanSentences ss with _ | ⟨⟨sp1, t1⟩, cl'⟩
  · have hspec : specFormat ss = "" := by
      rw [specFormat, hcl]
      rfl
    rw [hspec]
    rfl
  · have ht1 : t1 ≠ "" :=
      cleanSentences_text_ne ss (sp1, t1) (hcl ▸ List.mem_cons_self _ _)
    have hs1 : sp1.isSome :=
      cleanSentences_speaker_isSome ss hsp (sp1, t1) (hcl ▸ List.mem_cons_self _ _)
    have htexts : ∀ p ∈ cl', p.2 ≠ "" := fun p hp =>
      cleanSentences_text_ne ss p (hcl ▸ List.mem_cons_of_mem _ hp)
    obtain ⟨v, hv⟩ := Option.isSome_iff_exists.mp hs1
    have hbeq : (sp1 == (none : Option Nat)) = false := by rw [hv]; rfl
    have hstep1 : fmtStep' ⟨[], none, "", []⟩ (sp1, t1) =
        ⟨buildMap 0 [sp1], sp1, t1, []⟩ := by
      simp [fmtStep', insertSpeaker, hbeq, buildMap]
    have hsome1 : ((buildMap 0 [sp1]).lookup sp1).isSome := by
      simp [buildMap, List.lookup_cons]
    rw [List.foldl_cons, hstep1,
      fmtLoop_chunks cl' (buildMap 0 [sp1]) sp1 t1 [] hsome1 ht1 htexts]
    have hspec : specFormat ss = String.intercalate "\n"
        ((specChunks ((sp1, t1) :: cl')).map (specLine (firstOcc ((sp1, t1) :: cl')))) := by
      rw [specFormat, hcl]
    rw [hspec]
    have hmap2 : (specChunks ((sp1, t1) :: cl')).map (specLine (firstOcc ((sp1, t1) :: cl'))) =
        ((specChunks ((sp1, t1) :: cl')).map (fun c => (c.1, String.intercalate " " c.2))).map
          (fun c => specLabel (firstOcc ((sp1, t1) :: cl')) c.1 ++ ": " ++ c.2) := by
      rw [List.map_map]; rfl
    rw [hmap2, map_specChunks_eq_chunksFrom]
    have hfo : ([sp1] ++ (firstOcc cl').filter (fun x => x ∉ ([sp1] : List (Option Nat)))) =
        firstOcc ((sp1, t1) :: cl') := by
      show _ = sp1 :: (firstOcc cl').filter (fun x => x ≠ sp1)
      simp
    have hmaps : (chunksFrom sp1 t1 cl').map
          (renderLine (insertAll (buildMap 0 [sp1]) cl')) =
        (chunksFrom sp1 t1 cl').map
          (fun c => specLabel (firstOcc ((sp1, t1) :: cl')) c.1 ++ ": " ++ c.2) := by
      apply List.map_congr_left
      intro c hc
      have hcm : c.1 ∈ ([sp1] : List (Option Nat)) ∨ c.1 ∈ cl'.map Prod.fst := by
        rcases chunksFrom_fst_mem cl' sp1 t1 c hc with h | h
        · exact Or.inl (by simp [h])
        · exact Or.inr h
      have hlab := lookup_insertAll_buildMap cl' [sp1] c.1 hcm
      rw [hfo] at hlab
      simp [renderLine, hlab, specLabel]
    rw [hmaps]
    simp

/-- The sentence list a payload carries (empty when the payload is falsy, has
no transcripts, or its first transcript has no sentences). -/
def sentencesOf : Option TranscribeResult → List RawSentence
  | none => []
  | some r =>
    match r.transcripts with
    | [] => []
    | t :: _ => t.sentences.getD []

/-- Claim C4: on the sentence sequence [(A,"hi"), (A,"there"), (B,"hey")] the
formatter produces exactly the two lines "speaker 1: hi there" and
"speaker 2: hey"; in general, for every non-empty sentence sequence whose
sentences carry a speaker identifier, the formatter output equals the
specification formatting — consecutive sentences sharing a speaker identifier
are space-joined into one line and the labels "speaker 1", "speaker 2", … are
assigned in order of first appearance — which is a function of the input
sequence alone, hence deterministic for a given input order. -/
theorem claim_C4 :
    (format_transcription_result
        (sentencesPayload [⟨some 0, "hi"⟩, ⟨some 0, "there"⟩, ⟨some 1, "hey"⟩]) =
      "speaker 1: hi there\nspeaker 2: hey") ∧
    ∀ (ss : List RawSentence), ss ≠ [] → (∀ s ∈ ss, s.speaker_id.isSome) →
      format_transcription_result (sentencesPayload ss) = specFormat ss :=
  ⟨by decide, fun ss hne hs => format_eq_spec ss hs hne⟩

/-- Witness for C4: the general statement applied to a concrete four-sentence
sequence with three speaker runs. -/
theorem claim_C4_witness :
    (([⟨some 5, " alpha "⟩, ⟨some 5, "beta"⟩, ⟨some 2, "gamma"⟩, ⟨some 5, "delta"⟩] :
        List RawSentence) ≠ [] ∧
      (∀ s ∈ ([⟨some 5, " alpha "⟩, ⟨some 5, "beta"⟩, ⟨some 2, "gamma"⟩,
          ⟨some 5, "delta"⟩] : List RawSentence), s.speaker_id.isSome)) ∧
    format_transcription_result
        (sentencesPayload [⟨some 5, " alpha "⟩, ⟨some 5, "beta"⟩, ⟨some 2, "gamma"⟩,
          ⟨some 5, "delta"⟩]) =
      specFormat [⟨some 5, " alpha "⟩, ⟨some 5, "beta"⟩, ⟨some 2, "gamma"⟩,
        ⟨some 5, "delta"⟩] :=
  ⟨⟨by decide, by decide⟩, claim_C4.2 _ (by decide) (by decide)⟩

/-- Claim C5: every payload carrying zero sentences — a falsy payload, one with
no transcripts, a first transcript without a sentences key, or an empty
sentence list — makes the formatter return one of its fixed human-readable
placeholder strings, never the empty string; as a total function of the
payload it raises no exception. -/
theorem claim_C5 (p : Option TranscribeResult) (h : sentencesOf p = []) :
    format_transcription_result p ∈
      ["No transcription result available", "No transcripts available",
        "No sentences available"] ∧
    format_transcription_result p ≠ "" := by
  rcases p with _ | ⟨trs⟩
  · constructor
    · rw [show format_transcription_result none =
        "No transcription result available" from rfl]
      decide
    · decide
  · rcases trs with _ | ⟨⟨sens⟩, ts⟩
    · constructor
      · rw [show format_transcription_result (some ⟨[]⟩) =
          "No transcripts available" from rfl]
        decide
      · decide
    · rcases sens with _ | ss
      · constructor
        · rw [show format_transcription_result (some ⟨⟨none⟩ :: ts⟩) =
            "No sentences available" from rfl]
          decide
        · rw [show format_transcription_result (some ⟨⟨none⟩ :: ts⟩) =
            "No sentences available" from rfl]
          decide
      · have hss : ss = [] := h
        subst hss
        constructor
        · rw [show format_transcription_result (some ⟨⟨some []⟩ :: ts⟩) =
            "No sentences available" from rfl]
          decide
        · rw [show format_transcription_result (some ⟨⟨some []⟩ :: ts⟩) =
            "No sentences available" from rfl]
          decide

/-- Witness for C5: a well-formed payload whose first transcript holds an
empty sentence list. -/
theorem claim_C5_witness :
    sentencesOf (some ⟨[⟨some []⟩]⟩) = [] ∧
    (format_transcription_result (some ⟨[⟨some []⟩]⟩) ∈
        ["No transcription result available", "No transcripts available",
          "No sentences available"] ∧
      format_transcription_result (some ⟨[⟨some []⟩]⟩) ≠ "") :=
  ⟨by decide, claim_C5 _ (by decide)⟩

/-- Claim C9: a payload whose sentence list is non-empty but all of whose
sentence texts strip to the empty string makes the formatter return the empty
string — every sentence is skipped before label assignment, no line is
produced, and no placeholder is substituted. -/
theorem claim_C9 (s : RawSentence) (rest : List RawSentence)
    (h : ∀ x ∈ s :: rest, pyStrip x.text = "") :
    format_transcription_result (sentencesPayload (s :: rest)) = "" := by
  have hcl : cleanSentences (s :: rest) = [] := by
    rw [cleanSentences, List.filterMap_eq_nil_iff]
    intro a ha
    rw [if_pos (h a ha)]
  show (if (s :: rest).length = 0 then "No sentences available"
    else String.intercalate "\n"
      (fmtFinish ((s :: rest).foldl fmtStep ⟨[], none, "", []⟩))) = ""
  rw [if_neg (by simp), foldl_fmtStep, hcl]
  rfl

/-- Witness for C9: two sentences whose texts are whitespace-only and empty. -/
theorem claim_C9_witness :
    (∀ x ∈ ([⟨some 0, "   "⟩, ⟨some 1, ""⟩] : List RawSentence), pyStrip x.text = "") ∧
    format_transcription_result (sentencesPayload [⟨some 0, "   "⟩, ⟨some 1, ""⟩]) = "" :=
  ⟨by decide, claim_C9 _ _ (by decide)⟩

/-! ## Polling loop (src/core/utils/transcribe_audio.py, wait_for_completion) -/

/-- One element of the `results` array in a poll response. -/
structure SubResult where
  subtask_status : String
  transcription_url : Option String
deriving DecidableEq, Repr

/-- The remote answer to one poll request: the HTTP status code, the
`output.task_status` field (`none` models a missing field, Python `None`), and
the `output.results` array (consulted only on SUCCEEDED). -/
structure PollResponse where
  status_code : Nat
  task_status : Option String
  results : List SubResult
deriving DecidableEq, Repr

/-- Every exit path of `wait_for_completion` as a distinct constructor;
Python returns the payload for `success` and `None` for every other case. -/
inductive WaitOutcome (α : Type) where
  | success (payload : α)
  | timeout
  | httpError (code : Nat)
  | taskFailed (status : Option String)
  | subtaskFailed
  | noUrl
  | fetchFailed (code : Nat)
deriving DecidableEq, Repr

/-- The value `wait_for_completion` actually returns in Python. -/
def WaitOutcome.toOption {α : Type} : WaitOutcome α → Option α
  | success p => some p
  | _ => none

/-- The `while retry_count < max_retries` loop of `wait_for_completion`
(transcribe_audio.py, lines 134-188), with `remaining = max_retries -
retry_count` as the recursion measure and `i` the 0-based poll index.  `poll`
gives the remote response to the i-th status request and `fetch` the status
code and body of the secondary GET on a transcription URL.  Only a
RUNNING/PENDING status continues the loop (consuming one attempt and sleeping
`retry_interval`, not modelled); every other branch returns at once.  The
second component counts the poll requests performed. -/
def waitPoll {α : Type} (poll : Nat → PollResponse) (fetch : String → Nat × α) :
    Nat → Nat → WaitOutcome α × Nat
  | 0, _ => (WaitOutcome.timeout, 0)
  | remaining + 1, i =>
    let resp := poll i
    if resp.status_code = 200 then
      if resp.task_status = some "SUCCEEDED" then
        match resp.results with
        | [] => (WaitOutcome.subtaskFailed, 1)
        | r0 :: _ =>
          if r0.subtask_status = "SUCCEEDED" then
            match r0.transcription_url with
            | none => (WaitOutcome.noUrl, 1)
            | some u =>
              let f := fetch u
              if f.1 = 200 then (WaitOutcome.success f.2, 1)
              else (WaitOutcome.fetchFailed f.1, 1)
          else (WaitOutcome.subtaskFailed, 1)
      else if resp.task_status = some "RUNNING" ∨ resp.task_status = some "PENDING" then
        let rest := waitPoll poll fetch remaining (i + 1)
        (rest.1, rest.2 + 1)
      else (WaitOutcome.taskFailed resp.task_status, 1)
    else (WaitOutcome.httpError resp.status_code, 1)

/-- Embedding of `wait_for_completion` (default `max_retries = 120`,
`retry_interval = 5` in the source): run the poll loop from attempt 0. -/
def wait_for_completion {α : Type} (poll : Nat → PollResponse)
    (fetch : String → Nat × α) (max_retries : Nat) : WaitOutcome α × Nat :=
  waitPoll poll fetch max_retries 0

def pendingResp : PollResponse := ⟨200, some "PENDING", []⟩

def runningResp : PollResponse := ⟨200, some "RUNNING", []⟩

def succeededResp (u : String) : PollResponse :=
  ⟨200, some "SUCCEEDED", [⟨"SUCCEEDED", some u⟩]⟩

/-- The remote status sequence PENDING, RUNNING, SUCCEEDED. -/
def pollSeqPRS : Nat → PollResponse
  | 0 => pendingResp
  | 1 => runningResp
  | _ => succeededResp "u"

/-- Claim C6: with remote status sequence [PENDING, RUNNING, SUCCEEDED] and
maxAttempts 5 the poll loop returns the fetched payload after exactly 3 poll
requests (only PENDING/RUNNING consume an attempt); with maxAttempts 2 and a
status that never leaves RUNNING it ends in the timeout outcome (Python's
timed-out `None`) after consuming both attempts. -/
theorem claim_C6 :
    wait_for_completion pollSeqPRS (fun _ => (200, 42)) 5 =
      (WaitOutcome.success 42, 3) ∧
    wait_for_completion (fun _ => runningResp) (fun _ => (200, 42)) 2 =
      (WaitOutcome.timeout, 2) := by
  constructor <;> rfl

/-! ## LLM client (src/core/utils/llm_client.py) -/

/-- Embedding of Python's `str.lstrip()`. -/
def pyLStrip (s : String) : String :=
  (s.data.dropWhile Char.isWhitespace).asString

/-- Embedding of Python's `str.lower()` (character-wise). -/
def pyLower (s : String) : String :=
  (s.data.map Char.toLower).asString

/-- Split a character list at newline characters (Python `str.split` with a
newline separator). -/
def splitNl : List Char → List (List Char)
  | [] => [[]]
  | c :: cs =>
    match splitNl cs with
    | [] => [[c]]
    | l :: ls => if c = '\n' then [] :: l :: ls else (c :: l) :: ls

/-- Embedding of `trim_multiple_line_indent` (llm_client.py, lines 9-51):
strip the text, split into lines, compute the minimal leading-space count of
the non-blank lines, and remove that many characters from every non-blank
line that is long enough; blank lines become empty.  When every line is blank
the stripped text is returned unchanged. -/
def trim_multiple_line_indent (text : String) : String :=
  if text = "" then ""
  else
    let lines := (splitNl (pyStrip text).data).map List.asString
    let indents := lines.filterMap fun line =>
      if pyStrip line = "" then none else some (line.length - (pyLStrip line).length)
    match indents.min? with
    | none => pyStrip text
    | some min_indent =>
      String.intercalate "\n" <| lines.map fun line =>
        if pyStrip line ≠ "" then
          if min_indent ≤ line.length then (line.data.drop min_indent).asString else line
        else ""

/-- The `SummaryType` enumeration (llm_client.py, lines 53-60). -/
inductive SummaryType where
  | GENERAL
  | GENERAL_DETAIL
  | KEY_POINTS
  | MEETING_MINUTES
  | INTERVIEW
  | QA
deriving DecidableEq, Repr

/-- The prompt templates of `get_prompt_template` (llm_client.py, lines
62-152).  Every member of the closed enumeration has a template, so the
source's `.get(summary_type, templates[GENERAL])` fallback cannot fire. -/
def get_prompt_template : SummaryType → String
  | .GENERAL => trim_multiple_line_indent "
            请总结以下转录文本的主要内容，使用简明的语言，并保持第三人称客观视角。

            {context_info}

            注意：转录文本存在机器转录误差，请尽模型最大努力去纠错。

            转录文本:
            {text}
            "
  | .GENERAL_DETAIL => trim_multiple_line_indent "
            请对以下转录文本进行详细总结，包括关键讨论点、重要决定和主要观点。使用第三人称客观视角，保持准确性，并提供比一般总结更丰富的信息和细节。

            请记住：
            1. 只总结文本中实际存在的内容，不要添加任何不在原文中的信息
            2. 如果内容有模糊不清或不确定的部分，请明确指出
            3. 保持总结与原文的一致性，避免任何形式的夸大或推测

            {context_info}

            注意：转录文本存在机器转录误差，请尽模型最大努力去纠错。

            转录文本:
            {text}
            "
  | .KEY_POINTS => trim_multiple_line_indent "
            请从以下转录文本中提取5-10个关键点，以要点形式列出，并对每个关键点做简短解释。

            {context_info}

            注意：转录文本存在机器转录误差，请尽模型最大努力去纠错。

            转录文本:
            {text}
            "
  | .MEETING_MINUTES => trim_multiple_line_indent "
            请将以下会议转录整理为标准会议纪要格式，包含以下部分：
            1. 会议主题
            2. 与会者（从转录中推断）
            3. 讨论的主要议题
            4. 决定的事项
            5. 后续行动

            {context_info}

            注意：转录文本存在机器转录误差，请尽模型最大努力去纠错。

            转录文本:
            {text}
            "
  | .INTERVIEW => trim_multiple_line_indent "
            请将以下采访转录总结为一篇文章，包含：
            1. 采访主题
            2. 主要观点
            3. 值得关注的引述（使用引号标注）
            4. 结论

            {context_info}

            注意：转录文本存在机器转录误差，请尽模型最大努力去纠错。

            转录文本:
            {text}
            "
  | .QA => trim_multiple_line_indent "
            请从以下转录文本中提取所有问题和回答，并按以下格式整理：

            问题1: [问题内容]
            回答1: [回答内容]

            问题2: [问题内容]
            回答2: [回答内容]

            {context_info}

            注意：转录文本存在机器转录误差，请尽模型最大努力去纠错。

            转录文本:
            {text}
            "

/-- Simultaneous substitution of the two placeholders of a template (Python
`template.format(text=..., context_info=...)`); 13 and 5 are the tail lengths
of the literal placeholder strings. -/
def formatAux (ci t : List Char) : List Char → List Char
  | [] => []
  | c :: cs =>
    if "{context_info}".data.isPrefixOf (c :: cs) then
      ci ++ formatAux ci t (cs.drop 13)
    else if "{text}".data.isPrefixOf (c :: cs) then
      t ++ formatAux ci t (cs.drop 5)
    else c :: formatAux ci t cs
termination_by l => l.length
decreasing_by
  · simp [List.length_drop]; omega
  · simp [List.length_drop]; omega
  · simp

def pyFormat (template context_info text : String) : String :=
  (formatAux context_info.data text.data template.data).asString

/-- The supported-model allow-lists (llm_client.py, lines 155-175). -/
def SUPPORTED_MODELS : List (String × List String) :=
  [("openai",
    ["gpt-4.1-2025-04-14",
     "gpt-4.1-mini-2025-04-14",
     "gpt-4o-2024-11-20",
     "gpt-4o",
     "claude-3-7-sonnet-thinking",
     "claude-3-7-sonnet-latest",
     "gemini-2.5-pro-exp-03-25",
     "gemini-2.5-pro-preview-05-06",
     "gemini-2.5-flash-preview-04-17"]),
   ("alibaba",
    ["qwen-max-2025-01-25",
     "qwen-plus-2025-04-28",
     "qwen-plus-2025-01-25",
     "qwen-turbo-2025-04-28",
     "qwen3-235b-a22b",
     "qwen-max"])]

/-- Embedding of `is_valid_model` (llm_client.py, lines 177-195): false for a
falsy provider or model name, otherwise membership of the model name in the
lower-cased provider's allow-list. -/
def is_valid_model (provider model_name : String) : Bool :=
  if provider = "" ∨ model_name = "" then false
  else
    match SUPPORTED_MODELS.lookup (pyLower provider) with
    | none => false
    | some models => models.contains model_name

/-- The Django settings the LLM clients and the pipeline consult; `none`
models an attribute that is absent (so `getattr` falls back to its default). -/
structure Settings where
  OPENAI_API_KEY : Option String
  OPENAI_API_BASE : Option String
  OPENAI_MODEL : Option String
  ALIBABA_DASHSCOPE_API_KEY : Option String
  ALIBABA_LLM_MODEL : Option String
  DEFAULT_LLM_PROVIDER : Option String
deriving DecidableEq, Repr

structure OpenAIClient where
  api_key : String
  api_base : String
  default_model : String
deriving DecidableEq, Repr

/-- `OpenAIClient.__init__` (llm_client.py, lines 256-262): a missing or falsy
API key raises `ValueError`, the API base and default model have defaults. -/
def OpenAIClient.init (s : Settings) : Except String OpenAIClient :=
  let key := s.OPENAI_API_KEY.getD ""
  if key = "" then .error "设置中未找到OpenAI API密钥"
  else .ok ⟨key, s.OPENAI_API_BASE.getD "https://api.openai.com/v1",
    s.OPENAI_MODEL.getD "gpt-4o"⟩

structure AlibabaClient where
  api_key : String
  default_model : String
deriving DecidableEq, Repr

/-- `AlibabaClient.__init__` (llm_client.py, lines 374-379). -/
def AlibabaClient.init (s : Settings) : Except String AlibabaClient :=
  let key := s.ALIBABA_DASHSCOPE_API_KEY.getD ""
  if key = "" then .error "设置中未找到阿里巴巴DashScope API密钥"
  else .ok ⟨key, s.ALIBABA_LLM_MODEL.getD "qwen-max"⟩

structure ChatMessage where
  role : String
  content : String
deriving DecidableEq, Repr

structure ChatChoice where
  message : ChatMessage
deriving DecidableEq, Repr

/-- Chat-completion response shape `{choices: [{message: {content}}]}`; an
empty `choices` array models the response on which `["choices"][0]` raises. -/
structure OpenAIResp where
  choices : List ChatChoice
deriving DecidableEq, Repr

/-- Generation-style response: `output.text` for the old flat shape (`none`
models a missing `text` key, on which Python raises `KeyError` and falls to
the second shape) and `output.choices` for the new chat-like shape (an empty
list models a missing or empty `choices` array). -/
structure AliOutput where
  text : Option String
  choices : List ChatChoice
deriving DecidableEq, Repr

structure AlibabaResp where
  output : AliOutput
deriving DecidableEq, Repr

/-- The result dict of `summarize`: the summary text, the raw provider
response (`none` after a failure) and the model that was used. -/
structure SummarizeResult (ρ : Type) where
  summary : String
  raw_response : Option ρ
  model_used : String
deriving DecidableEq, Repr

/-- The model a client uses: the override when truthy and in the provider's
allow-list, the client's configured default otherwise — the expression
`model if model and is_valid_model(provider, model) else self.default_model`
appearing in both `summarize` implementations. -/
def resolvedModel (provider default_model : String) : Option String → String
  | some m => if m ≠ "" ∧ is_valid_model provider m then m else default_model
  | none => default_model

/-- Embedding of `OpenAIClient.summarize` (llm_client.py, lines 312-348).
`outcome` is the environment's answer to the chat-completion request:
`Except.error e` models any exception raised while sending the request or
reading its body, with `e` the exception text; an empty `choices` array makes
the extraction of `result["choices"][0]` raise `IndexError`, which the same
handler turns into the failure result. -/
def OpenAIClient.summarize (c : OpenAIClient) (text : String)
    (summary_type : SummaryType) (context_info : String) (model : Option String)
    (outcome : Except String OpenAIResp) : SummarizeResult OpenAIResp :=
  let prompt := pyFormat (get_prompt_template summary_type) context_info text
  let messages := [ChatMessage.mk "system" "你是一个专业的内容总结助手。",
    ChatMessage.mk "user" prompt]
  let model_to_use := resolvedModel "openai" c.default_model model
  match outcome with
  | .error e => ⟨"内容总结失败: " ++ e, none, model_to_use⟩
  | .ok result =>
    match result.choices with
    | [] => ⟨"内容总结失败: list index out of range", none, model_to_use⟩
    | ch :: _ => ⟨ch.message.content, some result, model_to_use⟩

/-- Embedding of `AlibabaClient.summarize` (llm_client.py, lines 432-478):
the flat `output.text` shape takes precedence; on `KeyError` the nested
`output.choices[0].message.content` path is tried; if that also raises, the
`ValueError` wrapping the parse failure reaches the outer handler and yields
the failure result. -/
def AlibabaClient.summarize (c : AlibabaClient) (text : String)
    (summary_type : SummaryType) (context_info : String) (model : Option String)
    (outcome : Except String AlibabaResp) : SummarizeResult AlibabaResp :=
  let prompt := pyFormat (get_prompt_template summary_type) context_info text
  let messages := [ChatMessage.mk "system" "你是一个专业的内容总结助手。",
    ChatMessage.mk "user" prompt]
  let model_to_use := resolvedModel "alibaba" c.default_model model
  match outcome with
  | .error e => ⟨"内容总结失败: " ++ e, none, model_to_use⟩
  | .ok result =>
    match result.output.text with
    | some t => ⟨t, some result, model_to_use⟩
    | none =>
      match result.output.choices with
      | ch :: _ => ⟨ch.message.content, some result, model_to_use⟩
      | [] => ⟨"内容总结失败: 无法解析API响应格式: list index out of range",
          none, model_to_use⟩

/-- Claim C2: neither provider's `summarize` raises — it is a total function
of its inputs and the request outcome — and whenever the request or the
response parsing raises, the result is the failure message, a null raw
response, and the resolved model (validated override, else the default):
for both clients on a raised request, for OpenAI on an empty `choices` array,
and for Alibaba on a response with neither `output.text` nor a non-empty
`output.choices`. -/
theorem claim_C2 (c : OpenAIClient) (c2 : AlibabaClient) (text : String)
    (st : SummaryType) (ci : String) (model : Option String) (e : String) :
    (OpenAIClient.summarize c text st ci model (.error e) =
      ⟨"内容总结失败: " ++ e, none, resolvedModel "openai" c.default_model model⟩) ∧
    (AlibabaClient.summarize c2 text st ci model (.error e) =
      ⟨"内容总结失败: " ++ e, none, resolvedModel "alibaba" c2.default_model model⟩) ∧
    (∀ r : OpenAIResp, r.choices = [] →
      OpenAIClient.summarize c text st ci model (.ok r) =
        ⟨"内容总结失败: list index out of range", none,
          resolvedModel "openai" c.default_model model⟩) ∧
    (∀ r : AlibabaResp, r.output.text = none → r.output.choices = [] →
      AlibabaClient.summarize c2 text st ci model (.ok r) =
        ⟨"内容总结失败: 无法解析API响应格式: list index out of range", none,
          resolvedModel "alibaba" c2.default_model model⟩) := by
  refine ⟨rfl, rfl, ?_, ?_⟩
  · intro r hr
    simp [OpenAIClient.summarize, hr]
  · intro r ht hc
    simp [AlibabaClient.summarize, ht, hc]

/-- Witness for C2: both clients on concrete unparsable responses — an empty
choices array for OpenAI, neither response shape for Alibaba. -/
theorem claim_C2_witness :
    OpenAIClient.summarize ⟨"k", "b", "gpt-4o"⟩ "txt" SummaryType.GENERAL "ctx"
        (some "gpt-4o") (.ok ⟨[]⟩) =
      ⟨"内容总结失败: list index out of range", none,
        resolvedModel "openai" "gpt-4o" (some "gpt-4o")⟩ ∧
    AlibabaClient.summarize ⟨"k", "qwen-max"⟩ "txt" SummaryType.GENERAL "ctx"
        none (.ok ⟨⟨none, []⟩⟩) =
      ⟨"内容总结失败: 无法解析API响应格式: list index out of range", none,
        resolvedModel "alibaba" "qwen-max" none⟩ :=
  ⟨(claim_C2 ⟨"k", "b", "gpt-4o"⟩ ⟨"k", "qwen-max"⟩ "txt"
      SummaryType.GENERAL "ctx" (some "gpt-4o") "boom").2.2.1 ⟨[]⟩ rfl,
   (claim_C2 ⟨"k", "b", "gpt-4o"⟩ ⟨"k", "qwen-max"⟩ "txt"
      SummaryType.GENERAL "ctx" none "boom").2.2.2 ⟨⟨none, []⟩⟩ rfl rfl⟩

/-- Claim C3: an explicitly supplied model name outside a provider's
allow-list does not make `summarize` reject the call — the call proceeds
exactly as if no override had been supplied, falling back to the configured
default, and the reported `model_used` is that default, for both providers. -/
theorem claim_C3 (m : String) :
    (∀ (c : OpenAIClient) (text : String) (st : SummaryType) (ci : String)
      (outcome : Except String OpenAIResp),
      is_valid_model "openai" m = false →
      OpenAIClient.summarize c text st ci (some m) outcome =
        OpenAIClient.summarize c text st ci none outcome ∧
      (OpenAIClient.summarize c text st ci (some m) outcome).model_used =
        c.default_model) ∧
    (∀ (c : AlibabaClient) (text : String) (st : SummaryType) (ci : String)
      (outcome : Except String AlibabaResp),
      is_valid_model "alibaba" m = false →
      AlibabaClient.summarize c text st ci (some m) outcome =
        AlibabaClient.summarize c text st ci none outcome ∧
      (AlibabaClient.summarize c text st ci (some m) outcome).model_used =
        c.default_model) := by
  constructor
  · intro c text st ci outcome h
    have hres : resolvedModel "openai" c.default_model (some m) = c.default_model := by
      simp [resolvedModel, h]
    have hres2 : resolvedModel "openai" c.default_model none = c.default_model := rfl
    constructor
    · cases outcome with
      | error e => simp [OpenAIClient.summarize, hres, hres2]
      | ok r =>
        cases hr : r.choices with
        | nil => simp [OpenAIClient.summarize, hres, hres2, hr]
        | cons ch rest => simp [OpenAIClient.summarize, hres, hres2, hr]
    · cases outcome with
      | error e => simp [OpenAIClient.summarize, hres]
      | ok r =>
        cases hr : r.choices with
        | nil => simp [OpenAIClient.summarize, hres, hr]
        | cons ch rest => simp [OpenAIClient.summarize, hres, hr]
  · intro c text st ci outcome h
    have hres : resolvedModel "alibaba" c.default_model (some m) = c.default_model := by
      simp [resolvedModel, h]
    have hres2 : resolvedModel "alibaba" c.default_model none = c.default_model := rfl
    constructor
    · cases outcome with
      | error e => simp [AlibabaClient.summarize, hres, hres2]
      | ok r =>
        cases ht : r.output.text with
        | some t => simp [AlibabaClient.summarize, hres, hres2, ht]
        | none =>
          cases hc : r.output.choices with
          | nil => simp [AlibabaClient.summarize, hres, hres2, ht, hc]
          | cons ch rest => simp [AlibabaClient.summarize, hres, hres2, ht, hc]
    · cases outcome with
      | error e => simp [AlibabaClient.summarize, hres]
      | ok r =>
        cases ht : r.output.text with
        | some t => simp [AlibabaClient.summarize, hres, ht]
        | none =>
          cases hc : r.output.choices with
          | nil => simp [AlibabaClient.summarize, hres, ht, hc]
          | cons ch rest => simp [AlibabaClient.summarize, hres, ht, hc]

/-- Witness for C3: the unsupported name "bogus-model" resolves to the
default for both providers. -/
theorem claim_C3_witness :
    (is_valid_model "openai" "bogus-model" = false ∧
      (OpenAIClient.summarize ⟨"k", "b", "gpt-4o"⟩ "txt" SummaryType.GENERAL ""
          (some "bogus-model") (.error "x")).model_used = "gpt-4o") ∧
    (is_valid_model "alibaba" "bogus-model" = false ∧
      (AlibabaClient.summarize ⟨"k", "qwen-max"⟩ "txt" SummaryType.GENERAL ""
          (some "bogus-model") (.error "x")).model_used = "qwen-max") :=
  ⟨⟨by decide,
    ((claim_C3 "bogus-model").1 ⟨"k", "b", "gpt-4o"⟩ "txt" SummaryType.GENERAL ""
      (.error "x") (by decide)).2⟩,
   ⟨by decide,
    ((claim_C3 "bogus-model").2 ⟨"k", "qwen-max"⟩ "txt" SummaryType.GENERAL ""
      (.error "x") (by decide)).2⟩⟩

/-! ## AudioMedia pipeline (src/core/models.py) -/

/-- Embedding of Python slicing `s[:n]` by code points. -/
def pySlice (s : String) (n : Nat) : String :=
  (s.data.take n).asString

/-- The persisted fields of an `AudioMedia` row that the pipeline methods
read or write.  File fields hold the stored name (`none` = no file),
date-time fields an abstract tick (`none` = NULL). -/
structure AudioMediaRec where
  title : String
  description : String
  subtitle : String
  original_file : Option String
  processed_file : Option String
  processing_date : Option Nat
  processing_status : String
  transcription_status : String
  transcription_start_date : Option Nat
  transcription_end_date : Option Nat
  raw_transcription : Option TranscribeResult
  formatted_transcription : String
  summary : String
  summary_type : String
  summary_date : Option Nat
  selected_model : String
deriving DecidableEq, Repr

/-- One `SummarySnapshot` row (models.py, lines 446-469) without its
identifiers; the rows belonging to one `AudioMedia` are kept as a list in
creation order. -/
structure SummarySnapshotRec (ρ : Type) where
  summary_type : String
  summary : String
  llm_provider : String
  llm_model : String
  raw_response : Option ρ
deriving DecidableEq, Repr

/-- Result of a stage method: the in-memory instance, the stored row after
the method's `save` calls, and the returned `(success, error_message)`
pair. -/
structure StageOut where
  mem : AudioMediaRec
  stored : AudioMediaRec
  ok : Bool
  err : Option String
deriving DecidableEq, Repr

/-- Environment of `convert_to_aac`: what the download, `process_audio_file`
and file-handling steps inside the `try` block do. -/
inductive ConvertEnv where
  | raises (msg : String)
  | processFails
  | succeeds (processed_name : String)
deriving DecidableEq, Repr

/-- Embedding of `AudioMedia.convert_to_aac` (models.py, lines 153-202).
Each Python `save(update_fields=[...])` becomes an update of exactly those
fields of the stored row; the success path ends in a full `save()`. -/
def convert_to_aac (mem stored : AudioMediaRec) (env : ConvertEnv) (now : Nat) :
    StageOut :=
  if mem.original_file = none then
    ⟨mem, stored, false, some "No original file to process"⟩
  else
    let mem1 := { mem with processing_status := "in_progress" }
    let stored1 := { stored with processing_status := mem1.processing_status }
    match env with
    | .raises msg =>
      let mem2 := { mem1 with processing_status := "failed" }
      ⟨mem2, { stored1 with processing_status := mem2.processing_status },
        false, some msg⟩
    | .processFails =>
      let mem2 := { mem1 with processing_status := "failed" }
      ⟨mem2, { stored1 with processing_status := mem2.processing_status },
        false, some "Failed to convert to AAC format"⟩
    | .succeeds name =>
      let mem2 := { mem1 with
        processed_file := some name
        processing_status := "completed"
        processing_date := some now }
      ⟨mem2, mem2, true, none⟩

/-- Environment of `transcribe_audio`: either a step inside the `try` block
raises (the http/https URL assertion, the network, …) or the transcription
utility returns its `{'raw_json': …, 'formatted_text': …}` dict (which
carries `raw_json = None` and an error text when submit or poll failed). -/
inductive TranscribeEnv where
  | raises (msg : String)
  | returns (raw_json : Option TranscribeResult) (formatted_text : String)
deriving DecidableEq, Repr

/-- Embedding of `AudioMedia.transcribe_audio` (models.py, lines 204-251). -/
def transcribe_audio (mem stored : AudioMediaRec) (env : TranscribeEnv)
    (now_start now_end : Nat) : StageOut :=
  if mem.processed_file = none then
    if mem.original_file ≠ none then
      ⟨mem, stored, false, some "Needs to be converted to AAC format first"⟩
    else
      ⟨mem, stored, false, some "No audio file to transcribe"⟩
  else
    let mem1 := { mem with
      transcription_status := "in_progress"
      transcription_start_date := some now_start }
    let stored1 := { stored with
      transcription_status := mem1.transcription_status
      transcription_start_date := mem1.transcription_start_date }
    match env with
    | .raises msg =>
      let mem2 := { mem1 with transcription_status := "failed" }
      ⟨mem2, { stored1 with transcription_status := mem2.transcription_status },
        false, some msg⟩
    | .returns raw fmt =>
      let mem2 := { mem1 with
        raw_transcription := raw
        formatted_transcription := fmt
        transcription_status := "completed"
        transcription_end_date := some now_end }
      ⟨mem2, mem2, true, none⟩

/-- Python `getattr(SummaryType, summary_type_str)`: `none` models the
`AttributeError` an unknown name raises. -/
def summaryTypeOfStr : String → Option SummaryType
  | "GENERAL" => some .GENERAL
  | "GENERAL_DETAIL" => some .GENERAL_DETAIL
  | "KEY_POINTS" => some .KEY_POINTS
  | "MEETING_MINUTES" => some .MEETING_MINUTES
  | "INTERVIEW" => some .INTERVIEW
  | "QA" => some .QA
  | _ => none

/-- `if not llm_provider: llm_provider = getattr(settings,
'DEFAULT_LLM_PROVIDER', 'openai')` (models.py, lines 290-291). -/
def resolveProvider (s : Settings) : Option String → String
  | some p => if p ≠ "" then p else s.DEFAULT_LLM_PROVIDER.getD "openai"
  | none => s.DEFAULT_LLM_PROVIDER.getD "openai"

/-- The context string built in `generate_summary` (models.py, lines
299-307) from the title, the optional description and the optional
world-background preamble. -/
def build_context_info (title description world_background : String) : String :=
  "标题: " ++ title ++
  (if description ≠ "" then "\n描述: " ++ description else "") ++
  (if world_background ≠ "" then
    "\n\n【背景知识参考 - 仅用于理解，不要与正文混淆】\n" ++ world_background ++
      "\n\n【重要提示：上面的背景信息仅供你理解世界背景和事实，与待总结的正文无关，请不要在总结中引用或混淆这些背景信息。只总结传入的转录文本内容。】"
  else "")

/-- What reaching out to the LLM produced: either obtaining the client raised
(`LLMClient.get_client` on an unknown provider, a missing credential) or the
client's `summarize` returned a result dict — for the concrete providers that
is the value of `OpenAIClient.summarize` or `AlibabaClient.summarize`, whose
model-override fallback is claim C3's subject. -/
inductive ClientCall (ρ : Type) where
  | clientError (msg : String)
  | call (result : SummarizeResult ρ)
deriving DecidableEq, Repr

/-- Result of `generate_summary`: the record states, the snapshot rows of
this record after the call, and the returned pair. -/
structure GenOut (ρ : Type) where
  mem : AudioMediaRec
  stored : AudioMediaRec
  snapshots : List (SummarySnapshotRec ρ)
  ok : Bool
  err : Option String
deriving DecidableEq, Repr

/-- Embedding of `AudioMedia.generate_summary` (models.py, lines 272-359):
require a non-empty formatted transcript, resolve the provider, turn the
summary-type string into the enum (`AttributeError` on an unknown name is
caught by the outer handler), build the context, obtain the client and call
`summarize` (both through `env`); a non-empty returned summary overwrites the
denormalized summary fields with a full `save()` and appends one
`SummarySnapshot`, anything else persists nothing. -/
def generate_summary {ρ : Type} (mem stored : AudioMediaRec)
    (snaps : List (SummarySnapshotRec ρ)) (s : Settings)
    (summary_type_str : String) (llm_provider model : Option String)
    (world_background : String) (env : ClientCall ρ) (now : Nat) : GenOut ρ :=
  if mem.formatted_transcription = "" then
    ⟨mem, stored, snaps, false, some "没有可用的转录文本来生成总结"⟩
  else
    let provider := resolveProvider s llm_provider
    match summaryTypeOfStr summary_type_str with
    | none =>
      ⟨mem, stored, snaps, false,
        some ("为 " ++ mem.title ++ " 生成总结时出错: AttributeError")⟩
    | some _summary_type =>
      let context_info := build_context_info mem.title mem.description world_background
      match env with
      | .clientError msg =>
        ⟨mem, stored, snaps, false,
          some ("为 " ++ mem.title ++ " 生成总结时出错: " ++ msg)⟩
      | .call result =>
        if result.summary ≠ "" then
          let mem2 := { mem with
            summary := result.summary
            summary_type := summary_type_str
            summary_date := some now
            selected_model := result.model_used }
          ⟨mem2, mem2,
            snaps ++ [⟨summary_type_str, result.summary, provider,
              result.model_used, result.raw_response⟩],
            true, none⟩
        else
          ⟨mem, stored, snaps, false, some "LLM未返回有效的总结内容"⟩

/-- Embedding of `build_subtitle_prompt` (models.py, lines 42-66); the
transcript is truncated to `max_length` (default 6000) code points. -/
def build_subtitle_prompt (title description formatted_transcription : String)
    (max_length : Nat) : String :=
  "请为以下音频转录文本生成一个简短副标题，要求：\n1. 长度在10-120个字符之间\n2. 简明扼要地概括内容核心\n3. 有吸引力，能引起读者兴趣\n4. 格式流畅，不使用标题格式（冒号、破折号等）\n5. 只输出标题文本，不要有任何前缀、引号或解释\n\n音频标题: " ++
    title ++ "\n" ++ (if description ≠ "" then description else "") ++
    "\n\n转录文本:\n" ++ pySlice formatted_transcription max_length

/-- Embedding of `AudioMedia.generate_subtitle` (models.py, lines 361-422):
require a non-empty formatted transcript; on a non-empty returned summary,
strip it, hard-truncate it to 180 code points plus an ellipsis marker when
longer than 180, and persist only the `subtitle` field
(`save(update_fields=['subtitle'])`). -/
def generate_subtitle {ρ : Type} (mem stored : AudioMediaRec) (s : Settings)
    (llm_provider model : Option String) (env : ClientCall ρ) : StageOut :=
  if mem.formatted_transcription = "" then
    ⟨mem, stored, false, some "没有可用的转录文本来生成副标题"⟩
  else
    let provider := resolveProvider s llm_provider
    let prompt := build_subtitle_prompt mem.title mem.description
      mem.formatted_transcription 6000
    match env with
    | .clientError msg =>
      ⟨mem, stored, false, some ("为 " ++ mem.title ++ " 生成副标题时出错: " ++ msg)⟩
    | .call result =>
      if result.summary ≠ "" then
        let subtitle0 := pyStrip result.summary
        let subtitle := if 180 < subtitle0.length then pySlice subtitle0 180 ++ "..."
          else subtitle0
        let mem2 := { mem with subtitle := subtitle }
        ⟨mem2, { stored with subtitle := mem2.subtitle }, true, none⟩
      else
        ⟨mem, stored, false, some "LLM未返回有效的副标题内容"⟩

/-- A populated record used by the concrete witnesses. -/
def rec0 : AudioMediaRec :=
  ⟨"T", "D", "S", some "orig.mp3", some "proc.aac", some 1, "completed",
    "completed", some 2, some 3, none, "speaker 1: hi", "old summary",
    "GENERAL", some 4, "gpt-4o"⟩

def settings0 : Settings :=
  ⟨some "k", none, none, some "k2", none, none⟩

/-- Claim C10: whenever a stage fails inside `convert_to_aac` or
`transcribe_audio` (the conversion utility failing or any step of the `try`
block raising), the stored row after the call is the prior stored row with
only that stage's own status field set to "failed" (plus, for the
transcription stage, the start timestamp written on entry): `processed_file`,
`processing_date`, `raw_transcription`, `formatted_transcription` and the
summary fields all keep their prior stored values. -/
theorem claim_C10 (mem stored : AudioMediaRec) (now now_start now_end : Nat)
    (msg : String) :
    (mem.original_file ≠ none →
      convert_to_aac mem stored (.raises msg) now =
        ⟨{ mem with processing_status := "failed" },
         { stored with processing_status := "failed" }, false, some msg⟩ ∧
      convert_to_aac mem stored .processFails now =
        ⟨{ mem with processing_status := "failed" },
         { stored with processing_status := "failed" }, false,
         some "Failed to convert to AAC format"⟩) ∧
    (mem.processed_file ≠ none →
      transcribe_audio mem stored (.raises msg) now_start now_end =
        ⟨{ mem with
            transcription_status := "failed"
            transcription_start_date := some now_start },
         { stored with
            transcription_status := "failed"
            transcription_start_date := some now_start }, false, some msg⟩) := by
  constructor
  · intro h
    constructor <;> simp [convert_to_aac, h]
  · intro h
    simp [transcribe_audio, h]

/-- Witness for C10: a fully populated record; both failing stages leave
every other stored field intact. -/
theorem claim_C10_witness :
    (rec0.original_file ≠ none ∧ rec0.processed_file ≠ none) ∧
    convert_to_aac rec0 rec0 (ConvertEnv.raises "x") 9 =
      ⟨{ rec0 with processing_status := "failed" },
       { rec0 with processing_status := "failed" }, false, some "x"⟩ ∧
    transcribe_audio rec0 rec0 (TranscribeEnv.raises "y") 5 6 =
      ⟨{ rec0 with
          transcription_status := "failed"
          transcription_start_date := some 5 },
       { rec0 with
          transcription_status := "failed"
          transcription_start_date := some 5 }, false, some "y"⟩ :=
  ⟨⟨by decide, by decide⟩,
   ((claim_C10 rec0 rec0 9 5 6 "x").1 (by decide)).1,
   (claim_C10 rec0 rec0 9 5 6 "y").2 (by decide)⟩

/-- Counterexample to claim C1 as stated: a summarization call that fails —
the remote request raises, so `OpenAIClient.summarize` returns its failure
result with `raw_response = none` — nonetheless makes `generate_summary`
create a snapshot and overwrite the denormalized summary fields, because the
failure message is a non-empty summary string. -/
theorem claim_C1_counterexample :
    (OpenAIClient.summarize ⟨"k", "https://api.openai.com/v1", "gpt-4o"⟩
        rec0.formatted_transcription SummaryType.GENERAL "ctx" none
        (Except.error "boom")).raw_response = none ∧
    (OpenAIClient.summarize ⟨"k", "https://api.openai.com/v1", "gpt-4o"⟩
        rec0.formatted_transcription SummaryType.GENERAL "ctx" none
        (Except.error "boom")).summary = "内容总结失败: boom" ∧
    (generate_summary rec0 rec0 [] settings0 "GENERAL" (some "openai") none ""
        (ClientCall.call (OpenAIClient.summarize
          ⟨"k", "https://api.openai.com/v1", "gpt-4o"⟩
          rec0.formatted_transcription SummaryType.GENERAL "ctx" none
          (Except.error "boom"))) 9).snapshots.length = 1 ∧
    (generate_summary rec0 rec0 [] settings0 "GENERAL" (some "openai") none ""
        (ClientCall.call (OpenAIClient.summarize
          ⟨"k", "https://api.openai.com/v1", "gpt-4o"⟩
          rec0.formatted_transcription SummaryType.GENERAL "ctx" none
          (Except.error "boom"))) 9).stored.summary = "内容总结失败: boom" ∧
    rec0.summary = "old summary" := by
  decide

/-- Claim C1 as amended: on a record with a non-empty formatted transcript
and a valid summary type, `generate_summary` persists nothing and creates no
snapshot when the summarize call's returned summary is empty; when the
returned summary is non-empty — including the failure-message summary the
client returns when the remote request raises — it appends exactly one
snapshot and overwrites the denormalized summary fields with the call's
result through a full save. -/
theorem claim_C1_amended {ρ : Type} (mem stored : AudioMediaRec)
    (snaps : List (SummarySnapshotRec ρ)) (s : Settings) (sts : String)
    (st : SummaryType) (provider model : Option String) (wb : String)
    (result : SummarizeResult ρ) (now : Nat)
    (htr : mem.formatted_transcription ≠ "")
    (hty : summaryTypeOfStr sts = some st) :
    (result.summary = "" →
      generate_summary mem stored snaps s sts provider model wb (.call result) now =
        ⟨mem, stored, snaps, false, some "LLM未返回有效的总结内容"⟩) ∧
    (result.summary ≠ "" →
      generate_summary mem stored snaps s sts provider model wb (.call result) now =
        ⟨{ mem with
            summary := result.summary
            summary_type := sts
            summary_date := some now
            selected_model := result.model_used },
         { mem with
            summary := result.summary
            summary_type := sts
            summary_date := some now
            selected_model := result.model_used },
         snaps ++ [⟨sts, result.summary, resolveProvider s provider,
            result.model_used, result.raw_response⟩],
         true, none⟩) := by
  constructor
  · intro hs
    simp [generate_summary, htr, hty, hs]
  · intro hs
    simp [generate_summary, htr, hty, hs]

/-- Witness for the amended C1: a concrete successful call appends one
snapshot and overwrites the summary fields. -/
theorem claim_C1_witness :
    rec0.formatted_transcription ≠ "" ∧
    summaryTypeOfStr "GENERAL" = some SummaryType.GENERAL ∧
    generate_summary rec0 rec0 ([] : List (SummarySnapshotRec Nat)) settings0
        "GENERAL" none none "" (.call ⟨"sum", some 7, "gpt-4o"⟩) 9 =
      ⟨{ rec0 with
          summary := "sum"
          summary_type := "GENERAL"
          summary_date := some 9
          selected_model := "gpt-4o" },
       { rec0 with
          summary := "sum"
          summary_type := "GENERAL"
          summary_date := some 9
          selected_model := "gpt-4o" },
       [⟨"GENERAL", "sum", "openai", "gpt-4o", some 7⟩], true, none⟩ :=
  ⟨by decide, by decide,
    (claim_C1_amended rec0 rec0 [] settings0 "GENERAL" SummaryType.GENERAL
      none none "" ⟨"sum", some 7, "gpt-4o"⟩ 9 (by decide) (by decide)).2
      (by decide)⟩

/-- Claim C8: every successful `generate_subtitle` call stores a subtitle of
at most 183 code points (the 180-point hard cut plus the three-dot ellipsis
marker); whenever the stripped LLM output is longer than that maximum, the
stored subtitle is exactly the 180-point prefix followed by the visible
"..." marker. -/
theorem claim_C8 {ρ : Type} (mem stored : AudioMediaRec) (s : Settings)
    (provider model : Option String) (result : SummarizeResult ρ)
    (htr : mem.formatted_transcription ≠ "") (hs : result.summary ≠ "") :
    (generate_subtitle mem stored s provider model (.call result)).ok = true ∧
    (generate_subtitle mem stored s provider model (.call result)).stored.subtitle.length ≤ 183 ∧
    (183 < (pyStrip result.summary).length →
      (generate_subtitle mem stored s provider model (.call result)).stored.subtitle =
        pySlice (pyStrip result.summary) 180 ++ "...") := by
  by_cases hlen : 180 < (pyStrip result.summary).length
  · have hout : generate_subtitle mem stored s provider model (.call result) =
        ⟨{ mem with subtitle := pySlice (pyStrip result.summary) 180 ++ "..." },
         { stored with subtitle := pySlice (pyStrip result.summary) 180 ++ "..." },
         true, none⟩ := by
      simp [generate_subtitle, htr, hs, hlen]
    refine ⟨by rw [hout], ?_, fun _ => by rw [hout]⟩
    rw [hout]
    show (pySlice (pyStrip result.summary) 180 ++ "...").length ≤ 183
    rw [String.length_append]
    have h1 : (pySlice (pyStrip result.summary) 180).length ≤ 180 := by
      rw [pySlice, List.length_asString, List.length_take]
      omega
    have h2 : ("..." : String).length = 3 := rfl
    omega
  · have hout : generate_subtitle mem stored s provider model (.call result) =
        ⟨{ mem with subtitle := pyStrip result.summary },
         { stored with subtitle := pyStrip result.summary },
         true, none⟩ := by
      simp [generate_subtitle, htr, hs, hlen]
    refine ⟨by rw [hout], ?_, fun hlen2 => absurd (by omega : 180 < (pyStrip result.summary).length) hlen⟩
    rw [hout]
    show (pyStrip result.summary).length ≤ 183
    omega

/-- Witness for C8: a 200-character LLM output is stored truncated to the
180-character prefix plus the ellipsis marker. -/
theorem claim_C8_witness :
    rec0.formatted_transcription ≠ "" ∧
    (String.mk (List.replicate 200 'a') : String) ≠ "" ∧
    ((generate_subtitle rec0 rec0 settings0 none none
        (.call (⟨String.mk (List.replicate 200 'a'), (none : Option Nat),
          "gpt-4o"⟩ : SummarizeResult Nat))).ok = true ∧
      (generate_subtitle rec0 rec0 settings0 none none
        (.call (⟨String.mk (List.replicate 200 'a'), (none : Option Nat),
          "gpt-4o"⟩ : SummarizeResult Nat))).stored.subtitle.length ≤ 183 ∧
      (183 < (pyStrip (String.mk (List.replicate 200 'a'))).length →
        (generate_subtitle rec0 rec0 settings0 none none
          (.call (⟨String.mk (List.replicate 200 'a'), (none : Option Nat),
            "gpt-4o"⟩ : SummarizeResult Nat))).stored.subtitle =
          pySlice (pyStrip (String.mk (List.replicate 200 'a'))) 180 ++ "...")) :=
  ⟨by decide, by decide,
    claim_C8 rec0 rec0 settings0 none none
      ⟨String.mk (List.replicate 200 'a'), none, "gpt-4o"⟩ (by decide) (by decide)⟩

/-! ## Audio conversion (src/core/utils/audio_processor.py) -/

/-- The fixed input-format allow-list (audio_processor.py, line 12). -/
def SUPPORTED_FORMATS : List String :=
  [".mp3", ".mp4", ".aac", ".wav", ".m4a", ".flac"]

/-- Environment of `convert_to_mono_aac`: whether the ffmpeg binary is on the
PATH, whether the input file exists, and whether the encode subprocess
succeeds. -/
structure AudioEnv where
  ffmpeg_installed : Bool
  input_exists : Bool
  encode_ok : Bool
deriving DecidableEq, Repr

/-- Every exit path of `convert_to_mono_aac`; Python returns the output path
for `converted` and `None` for every other case. -/
inductive ConvertOutcome where
  | encoderMissing
  | unsupportedFormat (suffix : String)
  | inputMissing
  | encodeFailed
  | converted (output_path : String)
deriving DecidableEq, Repr

/-- Embedding of `convert_to_mono_aac` (audio_processor.py, lines 50-158) at
the level of its decision sequence: the `ffmpeg -version` probe of
`check_ffmpeg_installed` runs first, then the extension check of
`input_path.suffix.lower()` against the allow-list, then the existence
check, then the single ffmpeg encode invocation.  The input path is
represented by its `Path.suffix`; the second and third result components
count the version-probe runs and the encode subprocess runs. -/
def convert_to_mono_aac (suffix : String) (env : AudioEnv) (output_path : String) :
    ConvertOutcome × Nat × Nat :=
  if env.ffmpeg_installed = false then (.encoderMissing, 1, 0)
  else if SUPPORTED_FORMATS.contains (pyLower suffix) = false then
    (.unsupportedFormat suffix, 1, 0)
  else if env.input_exists = false then (.inputMissing, 1, 0)
  else if env.encode_ok then (.converted output_path, 1, 1)
  else (.encodeFailed, 1, 1)

/-- Claim C7: with the encoder binary available, every input path whose
lower-cased extension is outside the fixed allow-list makes
`convert_to_mono_aac` fail with the unsupported-format outcome and perform
zero encode invocations (only the `ffmpeg -version` probe has run). -/
theorem claim_C7 (suffix : String) (env : AudioEnv) (out_path : String)
    (hff : env.ffmpeg_installed = true)
    (hsuf : SUPPORTED_FORMATS.contains (pyLower suffix) = false) :
    convert_to_mono_aac suffix env out_path =
      (ConvertOutcome.unsupportedFormat suffix, 1, 0) := by
  have hmem : ¬pyLower suffix ∈ SUPPORTED_FORMATS := by simpa using hsuf
  simp [convert_to_mono_aac, hff, hsuf]
  intro hx
  exact absurd hx hmem

/-- Witness for C7: a ".txt" input is rejected without encoding. -/
theorem claim_C7_witness :
    (AudioEnv.mk true true true).ffmpeg_installed = true ∧
    SUPPORTED_FORMATS.contains (pyLower ".TXT") = false ∧
    convert_to_mono_aac ".TXT" (AudioEnv.mk true true true) "out.aac" =
      (ConvertOutcome.unsupportedFormat ".TXT", 1, 0) :=
  ⟨by decide, by decide,
    claim_C7 ".TXT" (AudioEnv.mk true true true) "out.aac" (by decide) (by decide)⟩

end StreamSpark
